import Mathlib

/-!
Verification of run_models/scoring_methods.py: accuracy, a binary confusion
matrix over a designated unmonitored sentinel label, weighted F1, the
Bayesian detection rate, and the registry/evaluator running all of them.

Python numbers are modelled as exact rationals, Python exceptions as an
explicit error value carried in `Except`. Every metric takes the two label
sequences as Lean lists; the module-level constant
`constants.UNMONITORED_LABEL` becomes an explicit parameter `u`.
-/

/-- Errors the Python code can raise: `ValueError` with its message, and the
`ZeroDivisionError` arising from dividing by a zero sequence length. -/
inductive PyError where
  | valueError (msg : String)
  | zeroDivisionError
deriving DecidableEq

/-- The fixed message of the length-check `ValueError` in `check_inputs`. -/
def lengthMismatchMsg : String := "The length of y_pred and y_true should be the same"

variable {α : Type} [DecidableEq α]

/-- Embedding of `check_inputs`: raises `ValueError` when the lengths differ. -/
def check_inputs (y_pred y_true : List α) : Except PyError Unit :=
  if y_pred.length ≠ y_true.length then
    Except.error (PyError.valueError lengthMismatchMsg)
  else
    Except.ok ()

/-- Embedding of `accuracy`: number of positions where prediction equals
truth, divided by `len(y_pred)`; `N = 0` raises `ZeroDivisionError`. -/
def accuracy (y_pred y_true : List α) : Except PyError ℚ :=
  match check_inputs y_pred y_true with
  | Except.error e => Except.error e
  | Except.ok _ =>
    if y_pred.length = 0 then
      Except.error PyError.zeroDivisionError
    else
      Except.ok
        (((((y_pred.zip y_true).filter (fun q => decide (q.1 = q.2))).length : ℚ))
          / (y_pred.length : ℚ))

/-- The four counters of the binary confusion matrix. -/
structure ConfusionMatrix where
  TP : Nat
  TN : Nat
  FP : Nat
  FN : Nat
deriving DecidableEq

/-- One iteration of the loop body of `confusion_matrix`, applied to the
pair (predicted value, true value) at one index. -/
def cmStep (u : α) (r : ConfusionMatrix) (q : α × α) : ConfusionMatrix :=
  if q.1 = q.2 then
    if q.1 = u then
      ⟨r.TP, r.TN + 1, r.FP, r.FN⟩
    else
      ⟨r.TP + 1, r.TN, r.FP, r.FN⟩
  else
    if q.2 = u then
      ⟨r.TP, r.TN, r.FP + 1, r.FN⟩
    else
      ⟨r.TP, r.TN, r.FP, r.FN + 1⟩

/-- Embedding of `confusion_matrix`: after the length check, folds the loop
body over the pairs `(y_pred[i], y_true[i])` starting from all-zero counters.
`u` stands for `constants.UNMONITORED_LABEL`. -/
def confusion_matrix (u : α) (y_pred y_true : List α) :
    Except PyError ConfusionMatrix :=
  match check_inputs y_pred y_true with
  | Except.error e => Except.error e
  | Except.ok _ => Except.ok ((y_pred.zip y_true).foldl (cmStep u) ⟨0, 0, 0, 0⟩)

/-- Number of index pairs counted as TP: prediction equals truth and the true
label is not the unmonitored sentinel. -/
def countTP (u : α) (l : List (α × α)) : Nat :=
  (l.filter (fun q => decide (q.1 = q.2 ∧ ¬ q.2 = u))).length

/-- Number of index pairs counted as TN: prediction equals truth and the true
label is the unmonitored sentinel. -/
def countTN (u : α) (l : List (α × α)) : Nat :=
  (l.filter (fun q => decide (q.1 = q.2 ∧ q.2 = u))).length

/-- Number of index pairs counted as FP: prediction differs from truth and
the true label is the unmonitored sentinel. -/
def countFP (u : α) (l : List (α × α)) : Nat :=
  (l.filter (fun q => decide (¬ q.1 = q.2 ∧ q.2 = u))).length

/-- Number of index pairs counted as FN: prediction differs from truth and
the true label is not the unmonitored sentinel. -/
def countFN (u : α) (l : List (α × α)) : Nat :=
  (l.filter (fun q => decide (¬ q.1 = q.2 ∧ ¬ q.2 = u))).length

/-- Per-class F1 from precision and recall over exact label equality, with
ill-defined ratios taken as 0 (part of the modelled external F1 routine). -/
def classF1 (y_true y_pred : List α) (c : α) : ℚ :=
  let tp : ℚ := (((y_true.zip y_pred).filter (fun q => decide (q.1 = c ∧ q.2 = c))).length : ℚ)
  let predc : ℚ := ((y_pred.filter (fun y => decide (y = c))).length : ℚ)
  let truec : ℚ := ((y_true.filter (fun y => decide (y = c))).length : ℚ)
  let prec : ℚ := if predc = 0 then 0 else tp / predc
  let recl : ℚ := if truec = 0 then 0 else tp / truec
  if prec + recl = 0 then 0 else 2 * prec * recl / (prec + recl)

/-- Modelled from the spec: the external routine `sklearn.metrics.f1_score`
with weighted averaging, which is not part of this repository. Per-class F1
is averaged weighted by each class's support (count of true instances) among
the distinct labels observed in `y_true`. -/
def f1_score_weighted (y_true y_pred : List α) : ℚ :=
  if y_true.length = 0 then 0
  else
    (y_true.dedup.map (fun c =>
      ((y_true.filter (fun y => decide (y = c))).length : ℚ) * classF1 y_true y_pred c)).sum
      / (y_true.length : ℚ)

/-- Embedding of `f1_score1`: checks the lengths, then delegates to the
weighted F1 routine with `(y_true, y_pred)` argument order. -/
def f1_score1 (y_pred y_true : List α) : Except PyError ℚ :=
  match check_inputs y_pred y_true with
  | Except.error e => Except.error e
  | Except.ok _ => Except.ok (f1_score_weighted y_true y_pred)

/-- Embedding of `bayesian_detection_rate`: builds the confusion matrix, the
priors PrM/PrU and the simplified rates TPR = TP/N, FPR = FP/N, then returns
numerator/denominator with the bare `except` returning 0 exactly when the
denominator is zero. The division defining PrM happens outside that
`try` block, so `N = 0` raises `ZeroDivisionError`. -/
def bayesian_detection_rate (u : α) (y_pred y_true : List α) :
    Except PyError ℚ :=
  match confusion_matrix u y_pred y_true with
  | Except.error e => Except.error e
  | Except.ok cm =>
    if y_true.length = 0 then
      Except.error PyError.zeroDivisionError
    else
      let PrM : ℚ := ((y_true.filter (fun y => decide (¬ y = u))).length : ℚ)
        / (y_true.length : ℚ)
      let PrU : ℚ := 1 - PrM
      let TPR : ℚ := (cm.TP : ℚ) / (y_true.length : ℚ)
      let FPR : ℚ := (cm.FP : ℚ) / (y_true.length : ℚ)
      let nominator : ℚ := TPR * PrM
      let denominator : ℚ := nominator + FPR * PrU
      if denominator = 0 then Except.ok 0 else Except.ok (nominator / denominator)

/-- Result of one metric: a number for accuracy/F1/BDR, the counter record
for the confusion matrix. -/
inductive MetricResult where
  | num (q : ℚ)
  | matrix (cm : ConfusionMatrix)
deriving DecidableEq

/-- Registry key of the accuracy metric. -/
def nameAccuracy : String := "accuracy"

/-- Registry key of the confusion-matrix metric. -/
def nameConfusionMatrix : String := "confusion-matrix"

/-- Registry key of the weighted F1 metric. -/
def nameF1Score : String := "f1-score"

/-- Registry key of the Bayesian detection rate metric. -/
def nameBdr : String := "bayesian_detection_rate"

/-- Embedding of `get_scoring_methods`: the registry, as an ordered
association list in the Python dict's insertion order. -/
def get_scoring_methods (u : α) :
    List (String × (List α → List α → Except PyError MetricResult)) :=
  [(nameAccuracy, fun y_pred y_true => (accuracy y_pred y_true).map MetricResult.num),
   (nameConfusionMatrix, fun y_pred y_true =>
     (confusion_matrix u y_pred y_true).map MetricResult.matrix),
   (nameF1Score, fun y_pred y_true => (f1_score1 y_pred y_true).map MetricResult.num),
   (nameBdr, fun y_pred y_true =>
     (bayesian_detection_rate u y_pred y_true).map MetricResult.num)]

/-- Embedding of the module-level constant `SCORING_METHODS`. -/
def SCORING_METHODS (u : α) :
    List (String × (List α → List α → Except PyError MetricResult)) :=
  get_scoring_methods u

/-- The loop of `evaluate_model`: runs each registered metric in order,
appending its result; the first raised error aborts the whole run. -/
def runMethods (y_pred y_true : List α) (acc : List (String × MetricResult)) :
    List (String × (List α → List α → Except PyError MetricResult)) →
      Except PyError (List (String × MetricResult))
  | [] => Except.ok acc
  | m :: rest =>
    match m.2 y_pred y_true with
    | Except.error e => Except.error e
    | Except.ok r => runMethods y_pred y_true (acc ++ [(m.1, r)]) rest

/-- Embedding of `evaluate_model`: evaluates every registered scoring method
on the same pair of sequences, collecting name/result pairs. -/
def evaluate_model (u : α) (y_pred y_true : List α) :
    Except PyError (List (String × MetricResult)) :=
  runMethods y_pred y_true [] (SCORING_METHODS u)

/-- Decides whether a raised error mentions the number `n` (its decimal
representation occurs inside the error message). -/
def errorNamesLength : PyError → Nat → Bool
  | PyError.valueError msg, n =>
    (List.range (msg.toList.length + 1)).any
      (fun i => (toString n).toList.isPrefixOf (msg.toList.drop i))
  | PyError.zeroDivisionError, _ => false

/-- Concrete label values used in the concrete test vectors. -/
def labelU : String := "U"

/-- Concrete monitored label used in the concrete test vectors. -/
def labelA : String := "A"

/-- Concrete generic label used in the concrete test vectors. -/
def labelB : String := "B"

lemma foldl_cmStep (u : α) (l : List (α × α)) (r : ConfusionMatrix) :
    l.foldl (cmStep u) r =
      ⟨r.TP + countTP u l, r.TN + countTN u l, r.FP + countFP u l, r.FN + countFN u l⟩ := by
  induction l generalizing r with
  | nil => simp [countTP, countTN, countFP, countFN]
  | cons q l ih =>
    obtain ⟨x, y⟩ := q
    rw [List.foldl_cons, ih]
    rcases eq_or_ne x y with h1 | h1
    · subst h1
      rcases eq_or_ne x u with h2 | h2
      · subst h2
        simp [cmStep, countTP, countTN, countFP, countFN, List.filter_cons]
        omega
      · simp [cmStep, countTP, countTN, countFP, countFN, h2, List.filter_cons]
        omega
    · rcases eq_or_ne y u with h3 | h3
      · subst h3
        simp [cmStep, countTP, countTN, countFP, countFN, h1, List.filter_cons]
        omega
      · simp [cmStep, countTP, countTN, countFP, countFN, h1, h3, List.filter_cons]
        omega

lemma counts_sum (u : α) (l : List (α × α)) :
    countTP u l + countTN u l + countFP u l + countFN u l = l.length := by
  induction l with
  | nil => simp [countTP, countTN, countFP, countFN]
  | cons q l ih =>
    obtain ⟨x, y⟩ := q
    rcases eq_or_ne x y with h1 | h1
    · subst h1
      rcases eq_or_ne x u with h2 | h2
      · subst h2
        simp only [countTP, countTN, countFP, countFN, List.filter_cons] at ih ⊢
        simp at ih ⊢
        omega
      · simp only [countTP, countTN, countFP, countFN, List.filter_cons] at ih ⊢
        simp [h2] at ih ⊢
        omega
    · rcases eq_or_ne y u with h3 | h3
      · subst h3
        simp only [countTP, countTN, countFP, countFN, List.filter_cons] at ih ⊢
        simp [h1] at ih ⊢
        omega
      · simp only [countTP, countTN, countFP, countFN, List.filter_cons] at ih ⊢
        simp [h1, h3] at ih ⊢
        omega

lemma countTP_add_countTN (u : α) (l : List (α × α)) :
    countTP u l + countTN u l = (l.filter (fun q => decide (q.1 = q.2))).length := by
  induction l with
  | nil => simp [countTP, countTN]
  | cons q l ih =>
    obtain ⟨x, y⟩ := q
    rcases eq_or_ne x y with h1 | h1
    · subst h1
      rcases eq_or_ne x u with h2 | h2
      · subst h2
        simp only [countTP, countTN, List.filter_cons] at ih ⊢
        simp at ih ⊢
        omega
      · simp only [countTP, countTN, List.filter_cons] at ih ⊢
        simp [h2] at ih ⊢
        omega
    · simp only [countTP, countTN, List.filter_cons] at ih ⊢
      simp [h1] at ih ⊢
      omega

lemma confusion_matrix_eq (u : α) (y_pred y_true : List α)
    (h : y_pred.length = y_true.length) :
    confusion_matrix u y_pred y_true =
      Except.ok ⟨countTP u (y_pred.zip y_true), countTN u (y_pred.zip y_true),
        countFP u (y_pred.zip y_true), countFN u (y_pred.zip y_true)⟩ := by
  simp [confusion_matrix, check_inputs, h, foldl_cmStep]

lemma length_filter_perm {β : Type} {l l2 : List β} (h : l.Perm l2) (p : β → Bool) :
    (l.filter p).length = (l2.filter p).length :=
  (List.Perm.filter p h).length_eq

/-- C1: confusion_matrix classifies every index pair by whether prediction
equals truth, and the TN-vs-TP and FP-vs-FN choices are determined solely by
whether the true label equals the unmonitored sentinel; on the concrete
example with sentinel U the counts are TP=1, TN=1, FP=1, FN=1. -/
theorem C1_confusion_matrix_classification (u : α) (y_pred y_true : List α)
    (h : y_pred.length = y_true.length) :
    confusion_matrix u y_pred y_true =
      Except.ok ⟨countTP u (y_pred.zip y_true), countTN u (y_pred.zip y_true),
        countFP u (y_pred.zip y_true), countFN u (y_pred.zip y_true)⟩ ∧
    confusion_matrix labelU [labelU, labelA, labelU, labelA]
      [labelU, labelA, labelA, labelU] = Except.ok ⟨1, 1, 1, 1⟩ :=
  ⟨confusion_matrix_eq u y_pred y_true h, by rfl⟩

/-- Witness for C1 at a concrete input. -/
theorem C1_confusion_matrix_classification_witness :
    ([labelA, labelU] : List String).length = ([labelU, labelU] : List String).length ∧
    (confusion_matrix labelU [labelA, labelU] [labelU, labelU] =
      Except.ok ⟨countTP labelU ([labelA, labelU].zip [labelU, labelU]),
        countTN labelU ([labelA, labelU].zip [labelU, labelU]),
        countFP labelU ([labelA, labelU].zip [labelU, labelU]),
        countFN labelU ([labelA, labelU].zip [labelU, labelU])⟩ ∧
    confusion_matrix labelU [labelU, labelA, labelU, labelA]
      [labelU, labelA, labelA, labelU] = Except.ok ⟨1, 1, 1, 1⟩) :=
  ⟨rfl, C1_confusion_matrix_classification labelU [labelA, labelU] [labelU, labelU] rfl⟩

/-- C3: for equal-length inputs the four confusion counters, which are
non-negative integers by construction, sum exactly to N. -/
theorem C3_counts_sum_to_N (u : α) (y_pred y_true : List α)
    (h : y_pred.length = y_true.length) (cm : ConfusionMatrix)
    (hcm : confusion_matrix u y_pred y_true = Except.ok cm) :
    cm.TP + cm.TN + cm.FP + cm.FN = y_pred.length := by
  rw [confusion_matrix_eq u y_pred y_true h] at hcm
  injection hcm with h2
  subst h2
  have hs := counts_sum u (y_pred.zip y_true)
  have hl : (y_pred.zip y_true).length = y_pred.length := by
    rw [List.length_zip, h]
    exact Nat.min_self _
  dsimp only
  omega

/-- Witness for C3 at a concrete input. -/
theorem C3_counts_sum_to_N_witness :
    ([labelA] : List String).length = ([labelU] : List String).length ∧
    confusion_matrix labelU [labelA] [labelU] = Except.ok ⟨0, 0, 1, 0⟩ ∧
    (0 + 0 + 1 + 0 : Nat) = ([labelA] : List String).length :=
  ⟨rfl, rfl, C3_counts_sum_to_N labelU [labelA] [labelU] rfl ⟨0, 0, 1, 0⟩ rfl⟩

/-- C6: on the pair of empty sequences, accuracy raises the division-by-zero
error instead of returning a value. -/
theorem C6_accuracy_empty_division_error :
    accuracy ([] : List String) [] = Except.error PyError.zeroDivisionError := rfl

/-- C9: on the pair of empty sequences, confusion_matrix succeeds with all
four counters zero, while accuracy and bayesian_detection_rate both raise
the division-by-zero error on the same input. -/
theorem C9_confusion_matrix_empty_ok :
    confusion_matrix labelU ([] : List String) [] = Except.ok ⟨0, 0, 0, 0⟩ ∧
    accuracy ([] : List String) [] = Except.error PyError.zeroDivisionError ∧
    bayesian_detection_rate labelU ([] : List String) [] =
      Except.error PyError.zeroDivisionError :=
  ⟨rfl, rfl, rfl⟩

/-- C10: on the pair of empty sequences, bayesian_detection_rate raises the
division-by-zero error from the prior computation rather than being saved by
the zero-denominator recovery (which would have returned `ok 0`). -/
theorem C10_bdr_empty_prior_division_error :
    bayesian_detection_rate labelU ([] : List String) [] =
      Except.error PyError.zeroDivisionError := rfl

/-- C4 counterexample: on a length-3 versus length-5 input, accuracy raises
the length-mismatch ValueError, but its message is a fixed sentence that
names neither of the two lengths (neither decimal numeral occurs in it). -/
theorem C4_counterexample_no_lengths_in_message :
    accuracy [labelA, labelA, labelA]
      [labelA, labelA, labelA, labelA, labelA] =
      Except.error (PyError.valueError lengthMismatchMsg) ∧
    errorNamesLength (PyError.valueError lengthMismatchMsg) 3 = false ∧
    errorNamesLength (PyError.valueError lengthMismatchMsg) 5 = false := by
  refine ⟨rfl, ?_, ?_⟩ <;> decide

/-- C4 amended: whenever the two sequences have different lengths, each of
accuracy, confusion_matrix, weighted F1 and bayesian_detection_rate raises
the length-mismatch ValueError with its fixed message (which does not name
the two lengths), and none of them returns a result. -/
theorem C4_length_mismatch_error (u : α) (y_pred y_true : List α)
    (h : y_pred.length ≠ y_true.length) :
    accuracy y_pred y_true = Except.error (PyError.valueError lengthMismatchMsg) ∧
    confusion_matrix u y_pred y_true =
      Except.error (PyError.valueError lengthMismatchMsg) ∧
    f1_score1 y_pred y_true = Except.error (PyError.valueError lengthMismatchMsg) ∧
    bayesian_detection_rate u y_pred y_true =
      Except.error (PyError.valueError lengthMismatchMsg) := by
  have hc : check_inputs y_pred y_true =
      Except.error (PyError.valueError lengthMismatchMsg) := by
    simp [check_inputs, h]
  refine ⟨?_, ?_, ?_, ?_⟩ <;>
    simp [accuracy, confusion_matrix, f1_score1, bayesian_detection_rate, hc]

/-- Witness for the amended C4 at a concrete input. -/
theorem C4_length_mismatch_error_witness :
    ([labelA] : List String).length ≠ ([labelA, labelA] : List String).length ∧
    (accuracy [labelA] [labelA, labelA] =
      Except.error (PyError.valueError lengthMismatchMsg) ∧
    confusion_matrix labelU [labelA] [labelA, labelA] =
      Except.error (PyError.valueError lengthMismatchMsg) ∧
    f1_score1 [labelA] [labelA, labelA] =
      Except.error (PyError.valueError lengthMismatchMsg) ∧
    bayesian_detection_rate labelU [labelA] [labelA, labelA] =
      Except.error (PyError.valueError lengthMismatchMsg)) :=
  ⟨by decide, C4_length_mismatch_error labelU [labelA] [labelA, labelA] (by decide)⟩

/-- C5: for equal-length, non-empty inputs, accuracy equals (TP+TN)/N with
TP and TN taken from confusion_matrix on the same inputs, and equally the
number of positions where prediction equals truth divided by N. -/
theorem C5_accuracy_from_confusion (u : α) (y_pred y_true : List α)
    (h : y_pred.length = y_true.length) (hN : y_pred.length ≠ 0)
    (cm : ConfusionMatrix) (hcm : confusion_matrix u y_pred y_true = Except.ok cm) :
    accuracy y_pred y_true =
      Except.ok (((cm.TP + cm.TN : Nat) : ℚ) / (y_pred.length : ℚ)) ∧
    accuracy y_pred y_true =
      Except.ok ((((y_pred.zip y_true).filter (fun q => decide (q.1 = q.2))).length : ℚ)
        / (y_pred.length : ℚ)) := by
  rw [confusion_matrix_eq u y_pred y_true h] at hcm
  injection hcm with h2
  subst h2
  have hnil : ¬ y_true = [] := by
    intro he
    apply hN
    rw [h, he]
    rfl
  constructor
  · simp [accuracy, check_inputs, h, hN, hnil, countTP_add_countTN]
  · simp [accuracy, check_inputs, h, hN, hnil]

/-- Witness for C5 at a concrete input. -/
theorem C5_accuracy_from_confusion_witness :
    ([labelA] : List String).length = ([labelA] : List String).length ∧
    ([labelA] : List String).length ≠ 0 ∧
    confusion_matrix labelU [labelA] [labelA] = Except.ok ⟨1, 0, 0, 0⟩ ∧
    (accuracy [labelA] [labelA] =
      Except.ok (((1 + 0 : Nat) : ℚ) / (([labelA] : List String).length : ℚ)) ∧
    accuracy [labelA] [labelA] =
      Except.ok (((([labelA].zip ([labelA] : List String)).filter
          (fun q => decide (q.1 = q.2))).length : ℚ)
        / (([labelA] : List String).length : ℚ))) :=
  ⟨rfl, by decide, rfl,
    C5_accuracy_from_confusion labelU [labelA] [labelA] rfl (by decide) ⟨1, 0, 0, 0⟩ rfl⟩

/-- C2: for equal-length inputs with N at least 1, bayesian_detection_rate
returns (TPR*PrM) / (TPR*PrM + FPR*PrU) with TPR = TP/N and FPR = FP/N taken
from confusion_matrix on the same inputs (divided by total N), PrM the
fraction of true labels differing from the sentinel, PrU = 1 - PrM; a zero
denominator yields 0 instead of an error. -/
theorem C2_bdr_formula (u : α) (y_pred y_true : List α)
    (h : y_pred.length = y_true.length) (hN : 1 ≤ y_true.length)
    (cm : ConfusionMatrix) (hcm : confusion_matrix u y_pred y_true = Except.ok cm) :
    bayesian_detection_rate u y_pred y_true =
      Except.ok
        (if (cm.TP : ℚ) / (y_true.length : ℚ)
              * (((y_true.filter (fun y => decide (¬ y = u))).length : ℚ)
                / (y_true.length : ℚ))
            + (cm.FP : ℚ) / (y_true.length : ℚ)
              * (1 - ((y_true.filter (fun y => decide (¬ y = u))).length : ℚ)
                / (y_true.length : ℚ)) = 0
         then 0
         else ((cm.TP : ℚ) / (y_true.length : ℚ)
              * (((y_true.filter (fun y => decide (¬ y = u))).length : ℚ)
                / (y_true.length : ℚ)))
            / ((cm.TP : ℚ) / (y_true.length : ℚ)
              * (((y_true.filter (fun y => decide (¬ y = u))).length : ℚ)
                / (y_true.length : ℚ))
            + (cm.FP : ℚ) / (y_true.length : ℚ)
              * (1 - ((y_true.filter (fun y => decide (¬ y = u))).length : ℚ)
                / (y_true.length : ℚ)))) := by
  have h0 : ¬ y_true.length = 0 := by omega
  simp only [bayesian_detection_rate, hcm, h0, if_false, ite_false]
  rw [apply_ite Except.ok]

/-- Witness for C2 at a concrete input. -/
theorem C2_bdr_formula_witness :
    ([labelA] : List String).length = ([labelA] : List String).length ∧
    1 ≤ ([labelA] : List String).length ∧
    confusion_matrix labelU [labelA] [labelA] = Except.ok ⟨1, 0, 0, 0⟩ ∧
    bayesian_detection_rate labelU [labelA] [labelA] =
      Except.ok
        (if ((1 : Nat) : ℚ) / (([labelA] : List String).length : ℚ)
              * (((([labelA] : List String).filter
                  (fun y => decide (¬ y = labelU))).length : ℚ)
                / (([labelA] : List String).length : ℚ))
            + ((0 : Nat) : ℚ) / (([labelA] : List String).length : ℚ)
              * (1 - ((([labelA] : List String).filter
                  (fun y => decide (¬ y = labelU))).length : ℚ)
                / (([labelA] : List String).length : ℚ)) = 0
         then 0
         else (((1 : Nat) : ℚ) / (([labelA] : List String).length : ℚ)
              * (((([labelA] : List String).filter
                  (fun y => decide (¬ y = labelU))).length : ℚ)
                / (([labelA] : List String).length : ℚ)))
            / (((1 : Nat) : ℚ) / (([labelA] : List String).length : ℚ)
              * (((([labelA] : List String).filter
                  (fun y => decide (¬ y = labelU))).length : ℚ)
                / (([labelA] : List String).length : ℚ))
            + ((0 : Nat) : ℚ) / (([labelA] : List String).length : ℚ)
              * (1 - ((([labelA] : List String).filter
                  (fun y => decide (¬ y = labelU))).length : ℚ)
                / (([labelA] : List String).length : ℚ)))) :=
  ⟨rfl, by decide, rfl,
    C2_bdr_formula labelU [labelA] [labelA] rfl (by decide) ⟨1, 0, 0, 0⟩ rfl⟩

/-- C7: evaluate_model is exactly the sequential run of the four registered
metrics on the same input pair, in registry order: when all succeed it
returns the mapping with exactly the four keys bound to the corresponding
metric results, and the first metric that raises makes evaluate_model
propagate that error with no partial mapping. -/
theorem C7_evaluate_model_runs_registry (u : α) (y_pred y_true : List α) :
    evaluate_model u y_pred y_true =
      Except.bind (accuracy y_pred y_true) (fun a =>
        Except.bind (confusion_matrix u y_pred y_true) (fun cm =>
          Except.bind (f1_score1 y_pred y_true) (fun f =>
            Except.map (fun b =>
              [(nameAccuracy, MetricResult.num a),
               (nameConfusionMatrix, MetricResult.matrix cm),
               (nameF1Score, MetricResult.num f),
               (nameBdr, MetricResult.num b)])
              (bayesian_detection_rate u y_pred y_true)))) := by
  simp only [evaluate_model, SCORING_METHODS, get_scoring_methods, runMethods]
  cases ha : accuracy y_pred y_true <;>
    simp only [runMethods, Except.map, Except.bind] <;>
  cases hc : confusion_matrix u y_pred y_true <;>
    simp only [runMethods, Except.map, Except.bind] <;>
  cases hf : f1_score1 y_pred y_true <;>
    simp only [runMethods, Except.map, Except.bind] <;>
  cases hb : bayesian_detection_rate u y_pred y_true <;>
    simp only [runMethods, Except.map, Except.bind] <;>
  rfl

lemma f1_weighted_perm {y_true y_pred y_true2 y_pred2 : List α}
    (htt : y_true.Perm y_true2) (hpp : y_pred.Perm y_pred2)
    (hz : (y_true.zip y_pred).Perm (y_true2.zip y_pred2)) :
    f1_score_weighted y_true y_pred = f1_score_weighted y_true2 y_pred2 := by
  have hlen : y_true.length = y_true2.length := htt.length_eq
  have hcF : ∀ c, classF1 y_true y_pred c = classF1 y_true2 y_pred2 c := by
    intro c
    simp only [classF1, length_filter_perm hz, length_filter_perm hpp,
      length_filter_perm htt]
  simp only [f1_score_weighted, hlen, length_filter_perm htt, hcF]
  rcases eq_or_ne y_true2.length 0 with h0 | h0
  · simp [h0]
  · simp only [if_neg h0]
    congr 1
    exact List.Perm.sum_eq (List.Perm.map _ htt.dedup)

/-- C8: permuting the index pairs of the two sequences simultaneously leaves
accuracy, confusion_matrix, weighted F1 and bayesian_detection_rate
unchanged. -/
theorem C8_permutation_invariance (u : α) (y_pred y_true y_pred2 y_true2 : List α)
    (h1 : y_pred.length = y_true.length) (h2 : y_pred2.length = y_true2.length)
    (hp : (y_pred.zip y_true).Perm (y_pred2.zip y_true2)) :
    accuracy y_pred y_true = accuracy y_pred2 y_true2 ∧
    confusion_matrix u y_pred y_true = confusion_matrix u y_pred2 y_true2 ∧
    f1_score1 y_pred y_true = f1_score1 y_pred2 y_true2 ∧
    bayesian_detection_rate u y_pred y_true =
      bayesian_detection_rate u y_pred2 y_true2 := by
  have hpp : y_pred.Perm y_pred2 := by
    have hm := hp.map Prod.fst
    rwa [List.map_fst_zip y_pred y_true (le_of_eq h1),
      List.map_fst_zip y_pred2 y_true2 (le_of_eq h2)] at hm
  have htt : y_true.Perm y_true2 := by
    have hm := hp.map Prod.snd
    rwa [List.map_snd_zip y_pred y_true (le_of_eq h1.symm),
      List.map_snd_zip y_pred2 y_true2 (le_of_eq h2.symm)] at hm
  have hN : y_pred.length = y_pred2.length := hpp.length_eq
  have hT : y_true.length = y_true2.length := htt.length_eq
  have e1 : y_true.length = y_pred.length := h1.symm
  have e2 : y_pred2.length = y_pred.length := hN.symm
  have e3 : y_true2.length = y_pred.length := by omega
  have hcm : confusion_matrix u y_pred y_true = confusion_matrix u y_pred2 y_true2 := by
    rw [confusion_matrix_eq u y_pred y_true h1, confusion_matrix_eq u y_pred2 y_true2 h2]
    simp only [countTP, countTN, countFP, countFN, length_filter_perm hp]
  have hswap : (y_true.zip y_pred).Perm (y_true2.zip y_pred2) := by
    have hm := hp.map Prod.swap
    rwa [List.zip_swap, List.zip_swap] at hm
  refine ⟨?_, hcm, ?_, ?_⟩
  · simp only [accuracy, check_inputs, e1, e2, e3, length_filter_perm hp]
  · have hw := f1_weighted_perm htt hpp hswap
    simp only [f1_score1, check_inputs, e1, e2, e3, hw]
  · simp only [bayesian_detection_rate, hcm, hT, length_filter_perm htt]

/-- Witness for C8 at a concrete input. -/
theorem C8_permutation_invariance_witness :
    ([labelA, labelU] : List String).length = ([labelU, labelA] : List String).length ∧
    ([labelU, labelA] : List String).length = ([labelA, labelU] : List String).length ∧
    (([labelA, labelU].zip ([labelU, labelA] : List String)).Perm
      ([labelU, labelA].zip ([labelA, labelU] : List String))) ∧
    (accuracy [labelA, labelU] [labelU, labelA] =
       accuracy [labelU, labelA] [labelA, labelU] ∧
     confusion_matrix labelU [labelA, labelU] [labelU, labelA] =
       confusion_matrix labelU [labelU, labelA] [labelA, labelU] ∧
     f1_score1 [labelA, labelU] [labelU, labelA] =
       f1_score1 [labelU, labelA] [labelA, labelU] ∧
     bayesian_detection_rate labelU [labelA, labelU] [labelU, labelA] =
       bayesian_detection_rate labelU [labelU, labelA] [labelA, labelU]) :=
  ⟨rfl, rfl, by decide,
    C8_permutation_invariance labelU [labelA, labelU] [labelU, labelA]
      [labelU, labelA] [labelA, labelU] rfl rfl (by decide)⟩
